import Mathlib

/-!
# Verification of `soaplib/serializers/primitive.py`

Shallow embedding of the scalar codec layer of soaplib: the `String`,
`Integer`, `Boolean`, `Date` and `DateTime` serializers and the
restriction-schema emitter (`String.add_to_schema`).

Modelling conventions:

* An element's text content is `Option String` (`None` text ↦ `none`).
* `to_xml` methods are modelled by the text they hand to `string_to_xml`
  (the element-creation glue is not under verification); `from_xml`
  methods by total functions into `Except PyErr _`, with `PyErr`
  distinguishing the Python exception classes that can escape.
* Python 2 semantics are kept: `int`/`long` are arbitrary precision
  (Lean `Int`), `str(u)` on a unicode string uses the ASCII codec,
  `s and b` returns the first falsy operand.
* `float` arithmetic is modelled exactly as IEEE-754 binary64 with
  round-to-nearest, ties-to-even, embedded in `ℚ` (`roundB64`); the
  model is exact for magnitudes above `2 ^ (-1300)` (far below any
  value reachable from the fractional-second texts handled here) and
  does not model overflow or subnormal flushing, none of which are
  reachable either.
* `pytz` collaborators: `pytz.utc` and `pytz.FixedOffset` are modelled
  by `Zone`; `FixedOffset(0)` returns the UTC singleton and offsets of
  1440 minutes or more raise `ValueError`, as in pytz.
-/

namespace Soaplib

set_option maxRecDepth 1000000

/-! ## Characters and decimal digits -/

/-- The decimal digit character for `d < 10` (as produced by Python's
`%d` formatting). -/
def digitChar (d : Nat) : Char := Char.ofNat (48 + d)

/-- Numeric value of a decimal digit character. -/
def digToNat (c : Char) : Nat := c.toNat - 48

/-- Python `%02d` formatting for `n < 100` (zero padded, two digits). -/
def pad2 (n : Nat) : List Char := [digitChar (n / 10), digitChar (n % 10)]

/-- Python `%04d` formatting for `n < 10000` (zero padded, four digits). -/
def pad4 (n : Nat) : List Char :=
  [digitChar (n / 1000), digitChar (n / 100 % 10), digitChar (n / 10 % 10),
    digitChar (n % 10)]

/-- Python `%06d` formatting for `n < 1000000` (zero padded, six digits),
as used by `datetime.isoformat` for the microsecond field. -/
def pad6 (n : Nat) : List Char :=
  [digitChar (n / 100000), digitChar (n / 10000 % 10), digitChar (n / 1000 % 10),
    digitChar (n / 100 % 10), digitChar (n / 10 % 10), digitChar (n % 10)]

/-- Fuel-driven decimal digit expansion, most significant digit first;
`fuel` bounds the recursion depth (any `fuel > n` is enough). -/
def natToCharsAux : Nat → Nat → List Char
  | 0, _ => []
  | fuel + 1, n =>
    if n < 10 then [digitChar n]
    else natToCharsAux fuel (n / 10) ++ [digitChar (n % 10)]

/-- Decimal digit characters of `n`, as produced by Python `str` on a
nonnegative integer. -/
def natToChars (n : Nat) : List Char := natToCharsAux (n + 1) n

/-- Python `str` on an arbitrary-precision integer. -/
def intStr (i : Int) : String :=
  if i < 0 then ⟨'-' :: natToChars i.natAbs⟩ else ⟨natToChars i.natAbs⟩

/-- Value of a big-endian list of decimal digit characters. -/
def charsVal (l : List Char) : Nat :=
  l.foldl (fun a c => a * 10 + digToNat c) 0

/-- Python whitespace, as stripped by `int(text)`. -/
def isPySpace (c : Char) : Bool :=
  c = ' ' || c = '\t' || c = '\n' || c = '\x0b' || c = '\x0c' || c = '\r'

/-- Strip leading and trailing Python whitespace. -/
def pyStrip (l : List Char) : List Char :=
  ((l.dropWhile isPySpace).reverse.dropWhile isPySpace).reverse

/-- The unsigned digit run of a base-10 `int(text)` literal: nonempty,
all decimal digits. -/
def pyIntCore (ds : List Char) : Option Int :=
  if ds ≠ [] ∧ ds.all Char.isDigit then some (charsVal ds) else Option.none

/-- Python `int(text)` on a base-10 literal: optional surrounding
whitespace, optional single sign, then a nonempty digit run; `none`
models the `ValueError` raised otherwise.  (Python 2's `int` already
promotes to `long` on overflow, so a single arbitrary-precision parse
is faithful.) -/
def pyIntOfString (s : String) : Option Int :=
  match pyStrip s.data with
  | c :: t =>
    if c = '-' then (pyIntCore t).map (fun v => -v)
    else if c = '+' then pyIntCore t
    else pyIntCore (c :: t)
  | [] => pyIntCore []

/-! ## Exact model of Python `float` (IEEE-754 binary64)

Exact rational arithmetic on unnormalized numerator/denominator pairs
(`PyQ`); only kernel-level `Int`/`Nat` operations are used so that every
definition evaluates by `decide`.  The denominator is positive for every
value built by the constructors below. -/

/-- An exact rational value: numerator and (positive) denominator,
not necessarily reduced. -/
structure PyQ where
  n : Int
  d : Nat
deriving Repr, DecidableEq

/-- Value equality of `PyQ` (cross multiplication). -/
def qEq (a b : PyQ) : Prop := a.n * b.d = b.n * a.d

instance (a b : PyQ) : Decidable (qEq a b) := by unfold qEq; infer_instance

/-- Floor of a `PyQ` (euclidean division by a positive denominator). -/
def qFloor (q : PyQ) : Int := q.n.ediv q.d

/-- Fuel-driven base-2 logarithm on `Nat` (`natLog2F fuel n` is
`⌊log2 n⌋` for `n ≥ 1` whenever `n < 2 ^ fuel`). -/
def natLog2F : Nat → Nat → Nat
  | 0, _ => 0
  | fuel + 1, n => if n < 2 then 0 else natLog2F fuel (n / 2) + 1

/-- `⌊log2 q⌋` for positive `q`; exact for `q > 2 ^ (-1300)` (every
magnitude reachable from the fractional-second texts handled here). -/
def qFloorLog2 (q : PyQ) : Int :=
  (natLog2F 3000 (((q.n * (2 ^ 1300 : Nat)).ediv q.d).toNat) : Int) - 1300

/-- Round a nonnegative `PyQ` to the nearest integer, ties to even
(comparisons of the fractional remainder with 1/2 are done by cross
multiplication). -/
def qRne (q : PyQ) : Int :=
  let f := qFloor q
  let r2 := 2 * (q.n - f * q.d)
  if r2 < (q.d : Int) then f
  else if (q.d : Int) < r2 then f + 1
  else if f % 2 = 0 then f else f + 1

/-- Round a `PyQ` to the nearest IEEE-754 binary64 value (53-bit
significand, round to nearest, ties to even), returned as an exact
`PyQ`.  The exponent is unbounded: overflow and subnormal flushing are
not modelled (not reachable from the values handled here). -/
def roundB64 (q : PyQ) : PyQ :=
  if q.n = 0 then ⟨0, 1⟩
  else
    let s : PyQ := if q.n < 0 then ⟨-q.n, q.d⟩ else q
    let e := qFloorLog2 s
    let m : PyQ :=
      if e ≤ 52 then ⟨s.n * (2 ^ (52 - e).toNat : Nat), s.d⟩
      else ⟨s.n, s.d * (2 ^ (e - 52).toNat : Nat)⟩
    let v := qRne m
    let a : PyQ :=
      if e ≤ 52 then ⟨v, (2 ^ (52 - e).toNat : Nat)⟩
      else ⟨v * (2 ^ (e - 52).toNat : Nat), 1⟩
    if q.n < 0 then ⟨-a.n, a.d⟩ else a

/-- Correctly rounded binary64 product, i.e. Python `x * y` on floats. -/
def pyMul (x y : PyQ) : PyQ := roundB64 ⟨x.n * y.n, x.d * y.d⟩

/-- Python `int()` on a float value: truncation toward zero. -/
def pyTruncInt (q : PyQ) : Int :=
  if 0 ≤ q.n then q.n.ediv q.d else -((-q.n).ediv q.d)

/-- Python `round()` on a nonnegative float value: round half to even
(used only to state what the spec's `round` formula would produce). -/
def pyRound (q : PyQ) : Int := qRne q

/-- Python `float(".d₁…dₖ")`: the correctly rounded binary64 value of
the exact decimal fraction. -/
def pyFloatOfFrac (ds : List Char) : PyQ :=
  roundB64 ⟨(charsVal ds : Int), 10 ^ ds.length⟩

/-! ## Python exception classes and values -/

/-- The Python exception classes that can escape the codec methods. -/
inductive PyErr where
  | attributeError
  | typeError
  | valueError
  | unicodeError
  | exception (msg : String)
deriving DecidableEq, Repr

deriving instance DecidableEq for Except

/-- A Python value as returned by `Boolean.from_xml`: the expression
`s and s.lower()[0] == 't'` returns `None` or a string (the first falsy
operand) or a bool. -/
inductive PyVal where
  | pyNone
  | pyStr (s : String)
  | pyBool (b : Bool)
deriving DecidableEq, Repr

/-- Python truthiness of a `PyVal` (`None` and `""` are falsy). -/
def pyTruthy : PyVal → Bool
  | PyVal.pyNone => false
  | PyVal.pyStr s => !s.isEmpty
  | PyVal.pyBool b => b

/-- ASCII lowercasing of one character (`str.lower`, restricted to the
ASCII range; no character outside it lowercases to an ASCII letter). -/
def pyCharLower (c : Char) : Char :=
  if 'A' ≤ c && c ≤ 'Z' then Char.ofNat (c.toNat + 32) else c

/-- Python `s.lower()`, characterwise. -/
def pyLower (s : String) : String := ⟨s.data.map pyCharLower⟩

/-! ## Boolean codec -/

/-- `Boolean.to_xml`: the text handed to `string_to_xml`, i.e.
`str(bool(value)).lower()` of the truthy-coerced value. -/
def booleanToXmlText (value : Bool) : String :=
  if value then "true" else "false"

/-- `Boolean.from_xml`: `s = element.text; return (s and s.lower()[0] == 't')`.
`s and b` is Python short-circuit `and`: it returns `s` itself (i.e. `None`
or `""`) when `s` is falsy, and the comparison bool otherwise. -/
def booleanFromXml (text : Option String) : PyVal :=
  match text with
  | Option.none => PyVal.pyNone
  | some s =>
    if s.isEmpty then PyVal.pyStr s
    else PyVal.pyBool ((pyLower s).data.headD ' ' = 't')

/-! ## String codec -/

/-- All characters in the ASCII range. -/
def pyAsciiOnly (s : String) : Bool := s.data.all (fun c => c.toNat < 128)

/-- Python 2 `str(u)` on a text value: encodes through the ASCII codec,
raising `UnicodeEncodeError` on any non-ASCII character. -/
def pyStrOf (u : String) : Except PyErr String :=
  if pyAsciiOnly u then Except.ok u else Except.error PyErr.unicodeError

/-- Python 2 `b.encode('utf-8')` on a byte string: implicitly decodes
through the ASCII codec first, then re-encodes; the identity on ASCII
data and `UnicodeDecodeError` otherwise. -/
def pyEncodeUtf8 (b : String) : Except PyErr String :=
  if pyAsciiOnly b then Except.ok b else Except.error PyErr.unicodeError

/-- `String.from_xml`: `u = element.text or ""`, then
`try: u = str(u); return u.encode(string_encoding) except: return u` —
the bare `except` swallows every error and returns the text bound to
`u` at that point (the original text: the failing assignment never
rebinds it). -/
def stringFromXml (text : Option String) : String :=
  let u := text.getD ""
  match (pyStrOf u).bind pyEncodeUtf8 with
  | Except.ok r => r
  | Except.error _ => u

/-! ## Integer codec -/

/-- `Integer.to_xml`: the text handed to `string_to_xml` is `str(value)`. -/
def integerToXmlText (value : Int) : String := intStr value

/-- `Integer.from_xml`: `int(element.text)`, falling back to
`long(element.text)` — in Python 2 both parse the same base-10 grammar
to arbitrary precision (`int` already promotes to `long` on overflow),
so the fallback changes nothing observable; `None` text raises
`TypeError` from both. -/
def integerFromXml (text : Option String) : Except PyErr Int :=
  match text with
  | Option.none => Except.error PyErr.typeError
  | some s =>
    match pyIntOfString s with
    | some v => Except.ok v
    | Option.none => Except.error PyErr.valueError

/-! ## Dates, datetimes and timezones -/

/-- The timezone attached to a parsed datetime: none (naive), the
`pytz.utc` singleton, or a pytz fixed-offset zone carrying a minute
offset. -/
inductive Zone where
  | naive
  | utc
  | fixed (minutes : Int)
deriving DecidableEq, Repr

/-- `pytz.FixedOffset(minutes)`: returns the UTC singleton for offset 0
and raises `ValueError` when the absolute offset reaches one day. -/
def pyFixedOffset (m : Int) : Except PyErr Zone :=
  if m = 0 then Except.ok Zone.utc
  else if 1440 ≤ m.natAbs then Except.error PyErr.valueError
  else Except.ok (Zone.fixed m)

structure PyDate where
  year : Nat
  month : Nat
  day : Nat
deriving DecidableEq, Repr

structure PyDateTime where
  year : Nat
  month : Nat
  day : Nat
  hour : Nat
  minute : Nat
  second : Nat
  microsecond : Int
  tz : Zone
deriving DecidableEq, Repr

/-- Gregorian leap-year rule (as in CPython's `datetime`). -/
def isLeapYear (y : Nat) : Bool := y % 4 = 0 && (y % 100 ≠ 0 || y % 400 = 0)

/-- Days in a month (as in CPython's `datetime`). -/
def daysInMonth (y m : Nat) : Nat :=
  if m = 2 then (if isLeapYear y then 29 else 28)
  else if m = 4 || m = 6 || m = 9 || m = 11 then 30
  else 31

/-- The range checks of the `datetime.date` constructor. -/
def validDate (y mo d : Nat) : Bool :=
  1 ≤ y && y ≤ 9999 && 1 ≤ mo && mo ≤ 12 && 1 ≤ d && d ≤ daysInMonth y mo

/-- The range checks of the `datetime.datetime` constructor for the
time fields. -/
def validTime (h mi s : Nat) (us : Int) : Bool :=
  h ≤ 23 && mi ≤ 59 && s ≤ 59 && 0 ≤ us && us ≤ 999999

/-- `datetime.date(year, month, day)`: `ValueError` outside the ranges. -/
def mkPyDate (y mo d : Nat) : Except PyErr PyDate :=
  if validDate y mo d then Except.ok ⟨y, mo, d⟩ else Except.error PyErr.valueError

/-- `datetime.datetime(...)`: `ValueError` outside the ranges. -/
def mkPyDateTime (y mo d h mi s : Nat) (us : Int) (tz : Zone) :
    Except PyErr PyDateTime :=
  if validDate y mo d && validTime h mi s us then Except.ok ⟨y, mo, d, h, mi, s, us, tz⟩
  else Except.error PyErr.valueError

/-! ## The three datetime grammars

`_local_re`, `_utc_re` and `_offset_re` are `re.match`ed, i.e. anchored
at the start of the text only: trailing input is ignored.  The patterns
are built from fixed-width digit groups, literal separators and one
greedy optional group `(\.\d+)?`; every follower of that group (`Z`,
`[+-]`, or nothing) rejects a digit, so maximal munch is equivalent to
the backtracking regex semantics and the matchers below are faithful
deterministic embeddings. -/

/-- Two mandatory decimal digits (`\d{2}`). -/
def parse2 : List Char → Option (Nat × List Char)
  | a :: b :: rest =>
    if a.isDigit && b.isDigit then some (digToNat a * 10 + digToNat b, rest)
    else Option.none
  | _ => Option.none

/-- Four mandatory decimal digits (`\d{4}`). -/
def parse4 : List Char → Option (Nat × List Char)
  | a :: b :: c :: d :: rest =>
    if a.isDigit && b.isDigit && c.isDigit && d.isDigit then
      some (((digToNat a * 10 + digToNat b) * 10 + digToNat c) * 10 + digToNat d, rest)
    else Option.none
  | _ => Option.none

/-- One mandatory literal character. -/
def parseLit (ch : Char) : List Char → Option (List Char)
  | c :: rest => if c = ch then some rest else Option.none
  | [] => Option.none

/-- The `[T ]` separator between date and time. -/
def parseSep : List Char → Option (List Char)
  | c :: rest => if c = 'T' || c = ' ' then some rest else Option.none
  | [] => Option.none

/-- The optional greedy fractional-second group `(\.\d+)?`; returns the
captured digits (without the dot) or `none` when the group did not
participate. -/
def parseFrac : List Char → Option (List Char) × List Char
  | '.' :: rest =>
    let ds := rest.takeWhile Char.isDigit
    if ds.isEmpty then (Option.none, '.' :: rest)
    else (some ds, rest.dropWhile Char.isDigit)
  | l => (Option.none, l)

/-- The captured fields of `_datetime_pattern`. -/
structure DTFields where
  year : Nat
  month : Nat
  day : Nat
  hr : Nat
  minute : Nat
  sec : Nat
  frac : Option (List Char)
deriving DecidableEq, Repr

/-- `_date_pattern`: `(?P<year>\d{4})-(?P<month>\d{2})-(?P<day>\d{2})`. -/
def parseDateG (l : List Char) : Option ((Nat × Nat × Nat) × List Char) := do
  let (y, l1) ← parse4 l
  let l2 ← parseLit '-' l1
  let (mo, l3) ← parse2 l2
  let l4 ← parseLit '-' l3
  let (d, l5) ← parse2 l4
  return ((y, mo, d), l5)

/-- `_time_pattern`:
`(?P<hr>\d{2}):(?P<min>\d{2}):(?P<sec>\d{2})(?P<sec_frac>\.\d+)?`. -/
def parseTimeG (l : List Char) :
    Option ((Nat × Nat × Nat × Option (List Char)) × List Char) := do
  let (h, l1) ← parse2 l
  let l2 ← parseLit ':' l1
  let (mi, l3) ← parse2 l2
  let l4 ← parseLit ':' l3
  let (s, l5) ← parse2 l4
  let (fr, l6) := parseFrac l5
  return ((h, mi, s, fr), l6)

/-- `_datetime_pattern = _date_pattern + '[T ]' + _time_pattern`. -/
def parseDT (l : List Char) : Option (DTFields × List Char) := do
  let ((y, mo, d), l1) ← parseDateG l
  let l2 ← parseSep l1
  let ((h, mi, s, fr), l3) ← parseTimeG l2
  return (⟨y, mo, d, h, mi, s, fr⟩, l3)

/-- The signed hour group `(?P<tz_hr>[+-]\d{2})`; the captured text
includes the sign, so `int(...)` of the group is the signed hour. -/
def parseTzHr : List Char → Option (Int × List Char)
  | c :: rest =>
    if c = '+' || c = '-' then
      (parse2 rest).map (fun p => (if c = '-' then -(p.1 : Int) else (p.1 : Int), p.2))
    else Option.none
  | [] => Option.none

/-- `_offset_pattern`: `(?P<tz_hr>[+-]\d{2}):(?P<tz_min>\d{2})`. -/
def parseOffsetG (l : List Char) : Option ((Int × Nat) × List Char) := do
  let (th, l1) ← parseTzHr l
  let l2 ← parseLit ':' l1
  let (tm, l3) ← parse2 l2
  return ((th, tm), l3)

/-- `_local_re.match(text)`: captured fields, trailing input ignored. -/
def matchLocal (l : List Char) : Option DTFields := (parseDT l).map Prod.fst

/-- `_utc_re.match(text)` (`_datetime_pattern + 'Z'`). -/
def matchUtc (l : List Char) : Option DTFields := do
  let (f, l1) ← parseDT l
  let _ ← parseLit 'Z' l1
  return f

/-- `_offset_re.match(text)` (`_datetime_pattern + _offset_pattern`). -/
def matchOffset (l : List Char) : Option (DTFields × Int × Nat) := do
  let (f, l1) ← parseDT l
  let (tz, _) ← parseOffsetG l1
  return (f, tz.1, tz.2)

/-- `microsec = int(float(fields.get("sec_frac", 0)) * 10 ** 6)`:
`groupdict(0)` substitutes the integer `0` when the group is absent
(`float(0) * 10**6` is exactly `0.0`); a captured group `".d₁…dₖ"` goes
through binary64 `float` parsing, multiplication and `int` truncation. -/
def microsecOfFrac : Option (List Char) → Int
  | Option.none => 0
  | some ds => pyTruncInt (pyMul (pyFloatOfFrac ds) ⟨1000000, 1⟩)

/-- The shared `parse_date` closure of `DateTime.from_xml`: build the
datetime from the captured fields and the chosen timezone. -/
def parseDateFields (f : DTFields) (tz : Zone) : Except PyErr PyDateTime :=
  mkPyDateTime f.year f.month f.day f.hr f.minute f.sec (microsecOfFrac f.frac) tz

/-- `DateTime.from_xml`: try `_utc_re`, then `_offset_re` (computing
`FixedOffset(tz_hr * 60 + tz_min)` before constructing the datetime),
then `_local_re`; raise `Exception("DateTime [text] not in known
format")` when none of the three matches a prefix of the text.
`None` text raises `TypeError` inside `re.match`. -/
def dateTimeFromXml (text : Option String) : Except PyErr PyDateTime :=
  match text with
  | Option.none => Except.error PyErr.typeError
  | some s =>
    match matchUtc s.data with
    | some f => parseDateFields f Zone.utc
    | Option.none =>
      match matchOffset s.data with
      | some (f, th, tm) =>
        (pyFixedOffset (th * 60 + tm)).bind (parseDateFields f)
      | Option.none =>
        match matchLocal s.data with
        | some f => parseDateFields f Zone.naive
        | Option.none =>
          Except.error (PyErr.exception ("DateTime [" ++ s ++ "] not in known format"))

/-- The minute offset of a zone, i.e. `utcoffset()` in minutes. -/
def zoneOffsetMinutes : Zone → Int
  | Zone.naive => 0
  | Zone.utc => 0
  | Zone.fixed m => m

/-- `±HH:MM` as rendered by `datetime.isoformat` for an attached
offset of `m` minutes (`|m| < 1440`). -/
def offsetChars (m : Int) : List Char :=
  if m < 0 then '-' :: (pad2 (m.natAbs / 60) ++ ':' :: pad2 (m.natAbs % 60))
  else '+' :: (pad2 (m.toNat / 60) ++ ':' :: pad2 (m.toNat % 60))

/-- The timezone suffix of `datetime.isoformat`: empty for a naive
value, else the rendered UTC offset (`pytz.utc` has offset 0 and is
rendered `+00:00`, not `Z`). -/
def zoneChars : Zone → List Char
  | Zone.naive => []
  | Zone.utc => offsetChars 0
  | Zone.fixed m => offsetChars m

/-- `value.isoformat('T')`:
`YYYY-MM-DDTHH:MM:SS[.ffffff][±HH:MM]` — the microsecond part is
printed `%06d` only when nonzero. -/
def dateTimeIsoChars (dt : PyDateTime) : List Char :=
  pad4 dt.year ++ '-' :: pad2 dt.month ++ '-' :: pad2 dt.day ++
    'T' :: pad2 dt.hour ++ ':' :: pad2 dt.minute ++ ':' :: pad2 dt.second ++
    (if dt.microsecond = 0 then [] else '.' :: pad6 dt.microsecond.toNat) ++
    zoneChars dt.tz

/-- `DateTime.to_xml`: the text handed to `string_to_xml` is
`value.isoformat('T')`. -/
def dateTimeToXmlText (dt : PyDateTime) : String := ⟨dateTimeIsoChars dt⟩

/-- `value.isoformat()` on a `datetime.date`: `YYYY-MM-DD`. -/
def dateIsoChars (d : PyDate) : List Char :=
  pad4 d.year ++ '-' :: pad2 d.month ++ '-' :: pad2 d.day

/-- `Date.to_xml`: the text handed to `string_to_xml` is
`value.isoformat()`. -/
def dateToXmlText (d : PyDate) : String := ⟨dateIsoChars d⟩

/-- The module constant `_date_pattern` — a raw pattern STRING.  Unlike
`_local_re`/`_utc_re`/`_offset_re` it is never passed to `re.compile`. -/
def datePatternStr : String :=
  "(?P<year>\\d\x7b4\x7d)-(?P<month>\\d\x7b2\x7d)-(?P<day>\\d\x7b2\x7d)"

/-- `_date_pattern.match(text)`: Python `str` objects have no `match`
method, so the attribute lookup raises `AttributeError` for every
`text`, before the text is even inspected. -/
def pyStrMatch (pattern : String) (text : Option String) :
    Except PyErr (Option (Nat × Nat × Nat)) :=
  Except.error PyErr.attributeError

/-- `Date.from_xml`: `match = _date_pattern.match(text)`; on a match
failure raise `Exception("Date [text] not in known format")`, else
build the date from the captured fields. -/
def dateFromXml (text : Option String) : Except PyErr PyDate :=
  (pyStrMatch datePatternStr text).bind fun m =>
    match m with
    | some (y, mo, d) => mkPyDate y mo d
    | Option.none =>
      Except.error (PyErr.exception
        ("Date [" ++ (text.getD "") ++ "] not in known format"))

/-! ## Restriction-schema emitter (`String.add_to_schema`) -/

/-- A length attribute value: a Python int or the string sentinel
`"unbounded"` (Python `==` between an int and a string is `False`). -/
inductive PyLen where
  | int (n : Int)
  | unbounded
deriving DecidableEq, Repr

/-- Python `str(...)` of a length attribute value. -/
def pyLenStr : PyLen → String
  | PyLen.int n => intStr n
  | PyLen.unbounded => "unbounded"

/-- The `Attributes` record of a bound `String` type.  `baseDefault`
stands for `SimpleType.is_default(cls)` — the base-class attribute
check, modelled from the spec (the base serializer module is not under
`src/`). -/
structure StringAttrs where
  min_len : PyLen
  max_len : PyLen
  patt : Option String
  baseDefault : Bool
deriving DecidableEq, Repr

/-- The parent defaults: `String.Attributes.min_len = 0`,
`String.Attributes.max_len = "unbounded"`,
`String.Attributes.pattern = None`. -/
def stringDefaultAttrs : StringAttrs := ⟨PyLen.int 0, PyLen.unbounded, Option.none, true⟩

/-- `String.is_default`: the base check and the three attribute
comparisons against the parent defaults. -/
def stringIsDefault (a : StringAttrs) : Bool :=
  a.baseDefault && a.min_len = PyLen.int 0 && a.max_len = PyLen.unbounded
    && a.patt = Option.none

/-- A bound `String` type: its generated schema type name and its
attribute record. -/
structure StringCls where
  typeName : String
  attrs : StringAttrs
deriving DecidableEq, Repr

/-- The facet kinds a `String` restriction can carry. -/
inductive FacetName where
  | length
  | minLength
  | maxLength
  | patt
deriving DecidableEq, Repr

/-- The schema-entries registry together with the restriction fragments
emitted into the schema document so far: each fragment is the ordered
list of facet children (name and `value` attribute) of one
`restriction` node. -/
structure SchemaEntries where
  registered : List String
  fragments : List (List (FacetName × String))
deriving DecidableEq, Repr

/-- `schema_entries.has_class(cls)` — modelled from the spec: the
registry records, per type, whether its restriction has already been
emitted. -/
def hasClass (se : SchemaEntries) (cls : StringCls) : Bool :=
  se.registered.contains cls.typeName

/-- The facet children emitted by `String.add_to_schema` into the
restriction node, in source order: if `min_len == max_len` a single
`length` facet; else `minLength` only when it differs from the parent
default and `maxLength` only when it differs from the parent default
(the `"unbounded"` sentinel); independently a `pattern` facet when the
bound pattern differs from the parent default `None`. -/
def restrictionFacets (a : StringAttrs) : List (FacetName × String) :=
  (if a.min_len = a.max_len then [(FacetName.length, pyLenStr a.min_len)]
   else
     (if a.min_len ≠ PyLen.int 0 then [(FacetName.minLength, pyLenStr a.min_len)] else [])
       ++ (if a.max_len ≠ PyLen.unbounded then [(FacetName.maxLength, pyLenStr a.max_len)] else []))
    ++ (match a.patt with
        | some p => [(FacetName.patt, p)]
        | Option.none => [])

/-- `String.add_to_schema`: skip entirely unless the class is
unregistered and non-default; otherwise `get_restriction_tag` (modelled
from the spec: it creates one restriction node in the schema document
and registers the class in the schema-entries registry) followed by the
facet emission above. -/
def addToSchema (cls : StringCls) (se : SchemaEntries) : SchemaEntries :=
  if !hasClass se cls && !stringIsDefault cls.attrs then
    ⟨cls.typeName :: se.registered, se.fragments ++ [restrictionFacets cls.attrs]⟩
  else se

/-- The `datetime.datetime` constructor checks, on a whole record. -/
def validDT (dt : PyDateTime) : Bool :=
  validDate dt.year dt.month dt.day
    && validTime dt.hour dt.minute dt.second dt.microsecond

/-- The zones whose serialized offset text parses back to the same
zone: naive, UTC, and fixed offsets that are positive or a whole
negative number of hours.  (A negative offset with a nonzero minute
part is corrupted by the `tz_hr * 60 + tz_min` computation in
`DateTime.from_xml`, and a fixed offset of exactly 0 cannot arise from
`pytz.FixedOffset` in the first place.) -/
def zoneRoundTrips : Zone → Bool
  | Zone.naive => true
  | Zone.utc => true
  | Zone.fixed m => decide (m ≠ 0 ∧ m.natAbs < 1440 ∧ (0 ≤ m ∨ m.natAbs % 60 = 0))

/-! ## Helper lemmas: digits and zero-padded fields -/

theorem digitChar_spec : ∀ d, d < 10 →
    (digitChar d).isDigit = true ∧ digToNat (digitChar d) = d := by decide

theorem digitChar_isDigit {d : Nat} (h : d < 10) : (digitChar d).isDigit = true :=
  (digitChar_spec d h).1

theorem digToNat_digitChar {d : Nat} (h : d < 10) : digToNat (digitChar d) = d :=
  (digitChar_spec d h).2

theorem parse2_pad2 {n : Nat} (h : n < 100) (rest : List Char) :
    parse2 (pad2 n ++ rest) = some (n, rest) := by
  have h1 : n / 10 < 10 := by omega
  have h2 : n % 10 < 10 := by omega
  simp only [pad2, List.cons_append, List.nil_append, parse2,
    digitChar_isDigit h1, digitChar_isDigit h2, Bool.and_self, if_true,
    digToNat_digitChar h1, digToNat_digitChar h2]
  congr 1
  congr 1
  omega

theorem parse4_pad4 {n : Nat} (h : n < 10000) (rest : List Char) :
    parse4 (pad4 n ++ rest) = some (n, rest) := by
  have h1 : n / 1000 < 10 := by omega
  have h2 : n / 100 % 10 < 10 := by omega
  have h3 : n / 10 % 10 < 10 := by omega
  have h4 : n % 10 < 10 := by omega
  simp only [pad4, List.cons_append, List.nil_append, parse4,
    digitChar_isDigit h1, digitChar_isDigit h2, digitChar_isDigit h3,
    digitChar_isDigit h4, Bool.and_self, if_true,
    digToNat_digitChar h1, digToNat_digitChar h2, digToNat_digitChar h3,
    digToNat_digitChar h4]
  congr 1
  congr 1
  omega

theorem parseLit_cons_self (ch : Char) (rest : List Char) :
    parseLit ch (ch :: rest) = some rest := by
  simp [parseLit]

theorem parseLit_cons_ne {ch c : Char} (h : c ≠ ch) (rest : List Char) :
    parseLit ch (c :: rest) = Option.none := by
  simp [parseLit, h]

theorem parseSep_T (rest : List Char) : parseSep ('T' :: rest) = some rest := by
  simp [parseSep]

theorem parseFrac_nil : parseFrac [] = (Option.none, []) := rfl

theorem parseFrac_cons_ne {c : Char} (h : c ≠ '.') (t : List Char) :
    parseFrac (c :: t) = (Option.none, c :: t) := by
  unfold parseFrac
  split
  · next heq => exact absurd (List.head_eq_of_cons_eq heq) h
  · rfl

theorem parseDateG_iso {y mo d : Nat} (hy : y < 10000) (hmo : mo < 100)
    (hd : d < 100) (rest : List Char) :
    parseDateG (pad4 y ++ '-' :: (pad2 mo ++ '-' :: (pad2 d ++ rest)))
      = some ((y, mo, d), rest) := by
  simp [parseDateG, parse4_pad4 hy, parseLit_cons_self, parse2_pad2 hmo,
    parse2_pad2 hd]

theorem parseTimeG_iso {h mi s : Nat} (hh : h < 100) (hmi : mi < 100)
    (hs : s < 100) (rest : List Char)
    (hfr : parseFrac rest = (Option.none, rest)) :
    parseTimeG (pad2 h ++ ':' :: (pad2 mi ++ ':' :: (pad2 s ++ rest)))
      = some ((h, mi, s, Option.none), rest) := by
  simp [parseTimeG, parse2_pad2 hh, parseLit_cons_self, parse2_pad2 hmi,
    parse2_pad2 hs, hfr]

theorem parseDT_iso {y mo d h mi s : Nat} (hy : y < 10000) (hmo : mo < 100)
    (hd : d < 100) (hh : h < 100) (hmi : mi < 100) (hs : s < 100)
    (rest : List Char) (hfr : parseFrac rest = (Option.none, rest)) :
    parseDT (pad4 y ++ '-' :: (pad2 mo ++ '-' :: (pad2 d ++ 'T' ::
        (pad2 h ++ ':' :: (pad2 mi ++ ':' :: (pad2 s ++ rest))))))
      = some (⟨y, mo, d, h, mi, s, Option.none⟩, rest) := by
  simp [parseDT, parseDateG_iso hy hmo hd, parseSep_T,
    parseTimeG_iso hh hmi hs rest hfr]

theorem parse2_pad2_nil {n : Nat} (h : n < 100) : parse2 (pad2 n) = some (n, []) := by
  have := parse2_pad2 h []
  simpa using this

theorem matchUtc_ser {y mo d h mi s : Nat} (hy : y < 10000) (hmo : mo < 100)
    (hd : d < 100) (hh : h < 100) (hmi : mi < 100) (hs : s < 100)
    (rest : List Char) (hfr : parseFrac rest = (Option.none, rest))
    (hZ : parseLit 'Z' rest = Option.none) :
    matchUtc (pad4 y ++ '-' :: (pad2 mo ++ '-' :: (pad2 d ++ 'T' ::
        (pad2 h ++ ':' :: (pad2 mi ++ ':' :: (pad2 s ++ rest)))))) = Option.none := by
  simp [matchUtc, parseDT_iso hy hmo hd hh hmi hs rest hfr, hZ]

theorem matchOffset_ser_none {y mo d h mi s : Nat} (hy : y < 10000) (hmo : mo < 100)
    (hd : d < 100) (hh : h < 100) (hmi : mi < 100) (hs : s < 100)
    (rest : List Char) (hfr : parseFrac rest = (Option.none, rest))
    (hoff : parseOffsetG rest = Option.none) :
    matchOffset (pad4 y ++ '-' :: (pad2 mo ++ '-' :: (pad2 d ++ 'T' ::
        (pad2 h ++ ':' :: (pad2 mi ++ ':' :: (pad2 s ++ rest))))))
      = Option.none := by
  simp [matchOffset, parseDT_iso hy hmo hd hh hmi hs rest hfr, hoff]

theorem matchOffset_ser_some {y mo d h mi s : Nat} {th : Int} {tm : Nat}
    {rest2 : List Char} (hy : y < 10000) (hmo : mo < 100)
    (hd : d < 100) (hh : h < 100) (hmi : mi < 100) (hs : s < 100)
    (rest : List Char) (hfr : parseFrac rest = (Option.none, rest))
    (hoff : parseOffsetG rest = some ((th, tm), rest2)) :
    matchOffset (pad4 y ++ '-' :: (pad2 mo ++ '-' :: (pad2 d ++ 'T' ::
        (pad2 h ++ ':' :: (pad2 mi ++ ':' :: (pad2 s ++ rest))))))
      = some (⟨y, mo, d, h, mi, s, Option.none⟩, th, tm) := by
  simp [matchOffset, parseDT_iso hy hmo hd hh hmi hs rest hfr, hoff]

theorem matchLocal_ser {y mo d h mi s : Nat} (hy : y < 10000) (hmo : mo < 100)
    (hd : d < 100) (hh : h < 100) (hmi : mi < 100) (hs : s < 100)
    (rest : List Char) (hfr : parseFrac rest = (Option.none, rest)) :
    matchLocal (pad4 y ++ '-' :: (pad2 mo ++ '-' :: (pad2 d ++ 'T' ::
        (pad2 h ++ ':' :: (pad2 mi ++ ':' :: (pad2 s ++ rest))))))
      = some ⟨y, mo, d, h, mi, s, Option.none⟩ := by
  simp [matchLocal, parseDT_iso hy hmo hd hh hmi hs rest hfr]

theorem parseOffsetG_offsetChars_nonneg {m : Int} (h0 : 0 ≤ m) (hm : m < 1440) :
    parseOffsetG (offsetChars m)
      = some ((((m.toNat / 60 : Nat) : Int), (m.toNat % 60 : Nat)), []) := by
  have hnn : ¬ m < 0 := by omega
  have hh : m.toNat / 60 < 100 := by omega
  have hmm : m.toNat % 60 < 100 := by omega
  simp only [offsetChars, if_neg hnn, parseOffsetG, parseTzHr]
  simp [parse2_pad2 hh, parseLit_cons_self, parse2_pad2_nil hmm]

theorem parseOffsetG_offsetChars_neg {m : Int} (hneg : m < 0)
    (hm : m.natAbs < 1440) :
    parseOffsetG (offsetChars m)
      = some ((-((m.natAbs / 60 : Nat) : Int), (m.natAbs % 60 : Nat)), []) := by
  have hh : m.natAbs / 60 < 100 := by omega
  have hmm : m.natAbs % 60 < 100 := by omega
  simp only [offsetChars, if_pos hneg, parseOffsetG, parseTzHr]
  simp [parse2_pad2 hh, parseLit_cons_self, parse2_pad2_nil hmm]

theorem zoneChars_noDot (tz : Zone) :
    parseFrac (zoneChars tz) = (Option.none, zoneChars tz) := by
  cases tz with
  | naive => rfl
  | utc =>
    simp only [zoneChars, offsetChars]
    norm_num
    exact parseFrac_cons_ne (by decide) _
  | fixed m =>
    simp only [zoneChars, offsetChars]
    split
    · exact parseFrac_cons_ne (by decide) _
    · exact parseFrac_cons_ne (by decide) _

theorem zoneChars_noZ (tz : Zone) :
    parseLit 'Z' (zoneChars tz) = Option.none := by
  cases tz with
  | naive => rfl
  | utc =>
    simp only [zoneChars, offsetChars]
    norm_num
    exact parseLit_cons_ne (by decide) _
  | fixed m =>
    simp only [zoneChars, offsetChars]
    split
    · exact parseLit_cons_ne (by decide) _
    · exact parseLit_cons_ne (by decide) _

theorem parseOffsetG_nil : parseOffsetG [] = Option.none := rfl

/-- Round-trip of whole-second datetimes over the zones that survive
the offset re-parse. -/
theorem dateTime_roundtrip_aux (y mo d h mi s : Nat) (tz : Zone)
    (hvd : validDate y mo d = true) (hvt : validTime h mi s 0 = true)
    (hz : zoneRoundTrips tz = true) :
    dateTimeFromXml (some (dateTimeToXmlText ⟨y, mo, d, h, mi, s, 0, tz⟩))
      = Except.ok ⟨y, mo, d, h, mi, s, 0, tz⟩ := by
  have hvd' := hvd
  have hvt' := hvt
  simp only [validDate, Bool.and_eq_true, decide_eq_true_eq] at hvd'
  simp only [validTime, Bool.and_eq_true, decide_eq_true_eq] at hvt'
  have hy : y < 10000 := by omega
  have hmo : mo < 100 := by omega
  have hd : d < 100 := by
    have : daysInMonth y mo ≤ 31 := by
      simp only [daysInMonth]
      split
      · split <;> omega
      · split <;> omega
    omega
  have hh : h < 100 := by omega
  have hmi : mi < 100 := by omega
  have hs : s < 100 := by omega
  have hser : dateTimeToXmlText ⟨y, mo, d, h, mi, s, 0, tz⟩
      = ⟨pad4 y ++ '-' :: (pad2 mo ++ '-' :: (pad2 d ++ 'T' ::
          (pad2 h ++ ':' :: (pad2 mi ++ ':' :: (pad2 s ++ zoneChars tz)))))⟩ := by
    simp [dateTimeToXmlText, dateTimeIsoChars]
  rw [hser]
  simp only [dateTimeFromXml,
    matchUtc_ser hy hmo hd hh hmi hs (zoneChars tz) (zoneChars_noDot tz) (zoneChars_noZ tz)]
  cases tz with
  | naive =>
    rw [matchOffset_ser_none hy hmo hd hh hmi hs (zoneChars Zone.naive)
      (zoneChars_noDot Zone.naive) (by simp [zoneChars, parseOffsetG_nil]),
      matchLocal_ser hy hmo hd hh hmi hs (zoneChars Zone.naive)
      (zoneChars_noDot Zone.naive)]
    simp [parseDateFields, microsecOfFrac, mkPyDateTime, hvd, hvt]
  | utc =>
    have h0 : parseOffsetG (zoneChars Zone.utc)
        = some ((((0 : Nat) : Int), (0 : Nat)), []) := by
      have := parseOffsetG_offsetChars_nonneg (m := 0) (by omega) (by omega)
      simpa [zoneChars] using this
    rw [matchOffset_ser_some hy hmo hd hh hmi hs (zoneChars Zone.utc)
      (zoneChars_noDot Zone.utc) h0]
    simp [pyFixedOffset, Except.bind, parseDateFields, microsecOfFrac,
      mkPyDateTime, hvd, hvt]
  | fixed m =>
    simp only [zoneRoundTrips, decide_eq_true_eq] at hz
    obtain ⟨hm0, hm1440, hsgn⟩ := hz
    have hne1440 : ¬ 1440 ≤ m.natAbs := by omega
    by_cases hneg : m < 0
    · have hmod : m.natAbs % 60 = 0 := by
        rcases hsgn with h' | h'
        · omega
        · exact h'
      have hoff : parseOffsetG (zoneChars (Zone.fixed m))
          = some ((-((m.natAbs / 60 : Nat) : Int), (m.natAbs % 60 : Nat)), []) := by
        simpa [zoneChars] using parseOffsetG_offsetChars_neg hneg hm1440
      rw [matchOffset_ser_some hy hmo hd hh hmi hs (zoneChars (Zone.fixed m))
        (zoneChars_noDot (Zone.fixed m)) hoff]
      have hval : (-((m.natAbs / 60 : Nat) : Int)) * 60 + ((m.natAbs % 60 : Nat) : Int) = m := by
        omega
      simp only [hval]
      simp [pyFixedOffset, hm0, hne1440, Except.bind, parseDateFields,
        microsecOfFrac, mkPyDateTime, hvd, hvt]
    · have h0 : 0 ≤ m := by omega
      have hoff : parseOffsetG (zoneChars (Zone.fixed m))
          = some ((((m.toNat / 60 : Nat) : Int), (m.toNat % 60 : Nat)), []) := by
        simpa [zoneChars] using parseOffsetG_offsetChars_nonneg h0 (by omega)
      rw [matchOffset_ser_some hy hmo hd hh hmi hs (zoneChars (Zone.fixed m))
        (zoneChars_noDot (Zone.fixed m)) hoff]
      have hval : (((m.toNat / 60 : Nat) : Int)) * 60 + ((m.toNat % 60 : Nat) : Int) = m := by
        omega
      simp only [hval]
      simp [pyFixedOffset, hm0, hne1440, Except.bind, parseDateFields,
        microsecOfFrac, mkPyDateTime, hvd, hvt]

/-! ## Helper lemmas: decimal serialization of integers -/

theorem charsVal_append_digit (l : List Char) (c : Char) :
    charsVal (l ++ [c]) = charsVal l * 10 + digToNat c := by
  simp [charsVal, List.foldl_append]

theorem natToCharsAux_spec :
    ∀ (fuel n : Nat), n < 10 ^ (fuel + 1) →
      (natToCharsAux (fuel + 1) n).all Char.isDigit = true
        ∧ natToCharsAux (fuel + 1) n ≠ []
        ∧ charsVal (natToCharsAux (fuel + 1) n) = n := by
  intro fuel
  induction fuel with
  | zero =>
    intro n hn
    have h10 : n < 10 := by simpa using hn
    simp [natToCharsAux, h10, charsVal, digitChar_isDigit h10,
      digToNat_digitChar h10]
  | succ f ih =>
    intro n hn
    by_cases h10 : n < 10
    · simp [natToCharsAux, h10, charsVal, digitChar_isDigit h10,
        digToNat_digitChar h10]
    · have hdiv : n / 10 < 10 ^ (f + 1) := by
        apply Nat.div_lt_of_lt_mul
        calc n < 10 ^ (f + 1 + 1) := hn
        _ = 10 * 10 ^ (f + 1) := by ring
      obtain ⟨ha, hne, hval⟩ := ih (n / 10) hdiv
      have hmod : n % 10 < 10 := by omega
      have hstep : natToCharsAux (f + 1 + 1) n
          = natToCharsAux (f + 1) (n / 10) ++ [digitChar (n % 10)] := by
        conv_lhs => rw [natToCharsAux]
        rw [if_neg h10]
      rw [hstep]
      constructor
      · simp only [List.all_append, ha, List.all_cons, List.all_nil,
          digitChar_isDigit hmod, Bool.and_self]
      constructor
      · simp
      · rw [charsVal_append_digit, hval, digToNat_digitChar hmod]
        omega

theorem natToChars_spec (n : Nat) :
    (natToChars n).all Char.isDigit = true
      ∧ natToChars n ≠ []
      ∧ charsVal (natToChars n) = n := by
  apply natToCharsAux_spec
  calc n < 10 ^ n := Nat.lt_pow_self (by norm_num) n
  _ ≤ 10 ^ (n + 1) := Nat.pow_le_pow_right (by norm_num) (Nat.le_succ n)

theorem isPySpace_of_isDigit {c : Char} (h : c.isDigit = true) :
    isPySpace c = false := by
  simp only [isPySpace, Bool.or_eq_false_iff, decide_eq_false_iff_not]
  refine ⟨⟨⟨⟨⟨?_, ?_⟩, ?_⟩, ?_⟩, ?_⟩, ?_⟩ <;>
    · intro e
      subst e
      exact absurd h (by decide)

theorem dropWhile_eq_self_of_all {p : Char → Bool} :
    ∀ l : List Char, (∀ c ∈ l, p c = false) → l.dropWhile p = l := by
  intro l h
  cases l with
  | nil => rfl
  | cons a t =>
    rw [List.dropWhile_cons, h a (List.mem_cons_self a t)]
    simp

theorem pyStrip_of_all {l : List Char} (h : ∀ c ∈ l, isPySpace c = false) :
    pyStrip l = l := by
  unfold pyStrip
  rw [dropWhile_eq_self_of_all l h,
    dropWhile_eq_self_of_all l.reverse (fun c hc => h c (List.mem_reverse.mp hc)),
    List.reverse_reverse]

theorem pyIntCore_natToChars (n : Nat) :
    pyIntCore (natToChars n) = some (n : Int) := by
  obtain ⟨ha, hne, hval⟩ := natToChars_spec n
  simp [pyIntCore, ha, hne, hval]

theorem notDigit_chars : ('-'.isDigit = false) ∧ ('+'.isDigit = false) := by decide

theorem pyIntOfString_intStr (i : Int) : pyIntOfString (intStr i) = some i := by
  obtain ⟨ha, hne, hval⟩ := natToChars_spec i.natAbs
  have hnospace : ∀ c ∈ natToChars i.natAbs, isPySpace c = false := by
    intro c hc
    exact isPySpace_of_isDigit (by
      have := List.all_eq_true.mp ha c hc
      simpa using this)
  by_cases hneg : i < 0
  · have : intStr i = ⟨'-' :: natToChars i.natAbs⟩ := by simp [intStr, hneg]
    rw [this]
    have hstrip : pyStrip ('-' :: natToChars i.natAbs) = '-' :: natToChars i.natAbs := by
      apply pyStrip_of_all
      intro c hc
      rcases List.mem_cons.mp hc with h' | h'
      · subst h'
        decide
      · exact hnospace c h'
    unfold pyIntOfString
    rw [hstrip]
    simp [pyIntCore_natToChars, abs_of_neg hneg]
  · have : intStr i = ⟨natToChars i.natAbs⟩ := by simp [intStr, hneg]
    rw [this]
    obtain ⟨c, t, he⟩ := List.exists_cons_of_ne_nil hne
    have hcdig : c.isDigit = true := by
      have := List.all_eq_true.mp ha c (by rw [he]; exact List.mem_cons_self c t)
      simpa using this
    have hcm : c ≠ '-' := by
      intro e
      subst e
      exact absurd hcdig (by decide)
    have hcp : c ≠ '+' := by
      intro e
      subst e
      exact absurd hcdig (by decide)
    unfold pyIntOfString
    rw [pyStrip_of_all hnospace, he]
    simp only [if_neg hcm, if_neg hcp, ← he, pyIntCore_natToChars]
    congr 1
    omega

/-! ## Helper lemmas: which errors the datetime branches can raise -/

theorem parseDateFields_ne_exception (f : DTFields) (tz : Zone) (msg : String) :
    parseDateFields f tz ≠ Except.error (PyErr.exception msg) := by
  unfold parseDateFields mkPyDateTime
  split <;> simp

theorem fixedBind_ne_exception (v : Int) (f : DTFields) (msg : String) :
    (pyFixedOffset v).bind (parseDateFields f) ≠ Except.error (PyErr.exception msg) := by
  unfold pyFixedOffset
  split
  · exact parseDateFields_ne_exception f Zone.utc msg
  · split
    · simp [Except.bind]
    · exact parseDateFields_ne_exception f (Zone.fixed v) msg

/-! ## Claim theorems -/

/-- **C1** (code bug).  The claimed Date round-trip cannot hold: for
*every* calendar date `D`, `Date.from_xml` applied to the
`YYYY-MM-DD` text written by `Date.to_xml` raises `AttributeError`,
because `_date_pattern` is the raw pattern string (never compiled with
`re.compile`) and Python strings have no `match` method. -/
theorem c1_date_roundtrip_attributeError :
    ∀ d : PyDate, dateFromXml (some (dateToXmlText d))
      = Except.error PyErr.attributeError := fun _ => rfl

/-- **C2** (counterexample).  The claimed DateTime round-trip fails as
stated: (i) the fixed-offset datetime at −330 minutes serializes to
`…-05:30` but re-parses with offset −270 minutes; (ii) the literal
text `2020-01-15T10:30:00Z` parses to the UTC datetime but
re-serializes as `2020-01-15T10:30:00+00:00`, not the original text;
(iii) the naive datetime with microsecond 249 re-parses with
microsecond 248 (float truncation). -/
theorem c2_roundtrip_counterexample :
    (dateTimeFromXml (some (dateTimeToXmlText ⟨2020, 1, 15, 10, 30, 0, 0, Zone.fixed (-330)⟩))
        = Except.ok ⟨2020, 1, 15, 10, 30, 0, 0, Zone.fixed (-270)⟩
      ∧ Zone.fixed (-270) ≠ Zone.fixed (-330))
    ∧ (dateTimeFromXml (some "2020-01-15T10:30:00Z")
        = Except.ok ⟨2020, 1, 15, 10, 30, 0, 0, Zone.utc⟩
      ∧ dateTimeToXmlText ⟨2020, 1, 15, 10, 30, 0, 0, Zone.utc⟩
        = "2020-01-15T10:30:00+00:00"
      ∧ "2020-01-15T10:30:00+00:00" ≠ "2020-01-15T10:30:00Z")
    ∧ dateTimeFromXml (some (dateTimeToXmlText ⟨2020, 1, 15, 10, 30, 0, 249, Zone.naive⟩))
        = Except.ok ⟨2020, 1, 15, 10, 30, 0, 248, Zone.naive⟩ := by
  refine ⟨⟨by decide, by decide⟩, ⟨by decide, by decide, by decide⟩, by decide⟩

/-- **C2** (amended).  DateTime round-trip holds for every valid
whole-second datetime whose zone is naive, UTC, or a fixed offset that
is positive or a whole negative number of hours: `from_xml ∘ to_xml`
reconstructs the datetime exactly, zone included (`pytz.FixedOffset 0`
is the UTC singleton, so the `+00:00` rendering of UTC re-parses to the
same zone object). -/
theorem c2_roundtrip_amended (dt : PyDateTime) (hv : validDT dt = true)
    (hus : dt.microsecond = 0) (hz : zoneRoundTrips dt.tz = true) :
    dateTimeFromXml (some (dateTimeToXmlText dt)) = Except.ok dt := by
  obtain ⟨y, mo, d, h, mi, s, us, tz⟩ := dt
  have hus' : us = 0 := hus
  subst hus'
  have hv' : (validDate y mo d && validTime h mi s 0) = true := hv
  rw [Bool.and_eq_true] at hv'
  exact dateTime_roundtrip_aux y mo d h mi s tz hv'.1 hv'.2 hz

/-- Witness for `c2_roundtrip_amended` at a concrete datetime with a
positive fixed offset. -/
theorem c2_roundtrip_amended_witness :
    validDT ⟨2020, 1, 15, 10, 30, 0, 0, Zone.fixed 330⟩ = true
    ∧ zoneRoundTrips (Zone.fixed 330) = true
    ∧ dateTimeFromXml (some (dateTimeToXmlText ⟨2020, 1, 15, 10, 30, 0, 0, Zone.fixed 330⟩))
        = Except.ok ⟨2020, 1, 15, 10, 30, 0, 0, Zone.fixed 330⟩ :=
  ⟨by decide, by decide,
    c2_roundtrip_amended ⟨2020, 1, 15, 10, 30, 0, 0, Zone.fixed 330⟩
      (by decide) (by decide) (by decide)⟩

/-- **C3** (code bug).  The offset suffix is parsed as
`tz_hr * 60 + tz_min` with a *signed* `tz_hr`, so `+05:30` yields the
claimed +330 minutes but `-05:30` yields −5·60+30 = −270 minutes
rather than the claimed −(5·60+30) = −330. -/
theorem c3_offset_sign_bug :
    dateTimeFromXml (some "2020-01-15T10:30:00+05:30")
        = Except.ok ⟨2020, 1, 15, 10, 30, 0, 0, Zone.fixed 330⟩
    ∧ dateTimeFromXml (some "2020-01-15T10:30:00-05:30")
        = Except.ok ⟨2020, 1, 15, 10, 30, 0, 0, Zone.fixed (-270)⟩
    ∧ (-270 : Int) ≠ -(5 * 60 + 30) := by
  refine ⟨by decide, by decide, by decide⟩

/-- **C4** (counterexample).  The fractional-second conversion is
`int(float(frac) * 10 ** 6)` — truncation toward zero, not `round`: on
`.1234567` the code produces microsecond 123456 while
`round(frac * 1_000_000)` gives 123457. -/
theorem c4_round_counterexample :
    dateTimeFromXml (some "2020-01-15T10:30:00.1234567")
        = Except.ok ⟨2020, 1, 15, 10, 30, 0, 123456, Zone.naive⟩
    ∧ pyRound (pyMul (pyFloatOfFrac ['1', '2', '3', '4', '5', '6', '7']) ⟨1000000, 1⟩)
        = 123457
    ∧ (123456 : Int) ≠ 123457 := by
  refine ⟨by decide, by decide, by decide⟩

/-- **C4** (amended).  The fractional group is parsed as a decimal
fraction of a second and converted to microseconds by
`int(frac * 1_000_000)` (binary64 arithmetic, truncation toward zero);
in particular `.123` yields 123000 and `.5` yields 500000, as in the
spec's scenarios. -/
theorem c4_truncation_amended :
    dateTimeFromXml (some "2020-02-29T23:59:59.123+05:30")
        = Except.ok ⟨2020, 2, 29, 23, 59, 59, 123000, Zone.fixed 330⟩
    ∧ dateTimeFromXml (some "2020-01-15T10:30:00.5")
        = Except.ok ⟨2020, 1, 15, 10, 30, 0, 500000, Zone.naive⟩ := by
  refine ⟨by decide, by decide⟩

/-- **C5** (confirmed).  Integer round-trip: for every integer `N`,
`Integer.to_xml` writes the decimal string of `N` and
`Integer.from_xml` parses it back to `N`; in particular `10^30` is
written as the 31-digit literal of the spec's scenario. -/
theorem c5_integer_roundtrip :
    (∀ n : Int, integerFromXml (some (integerToXmlText n)) = Except.ok n)
    ∧ integerToXmlText (10 ^ 30) = "1000000000000000000000000000000" := by
  constructor
  · intro n
    simp [integerFromXml, integerToXmlText, pyIntOfString_intStr]
  · decide

/-- **C6** (counterexample).  `Boolean.from_xml` on an element with
empty text returns the empty *string* (the first falsy operand of
`s and …`), not the boolean `False` the claim states. -/
theorem c6_boolean_counterexample :
    booleanFromXml (some "") = PyVal.pyStr ""
    ∧ PyVal.pyStr "" ≠ PyVal.pyBool false := by
  refine ⟨by decide, by decide⟩

/-- **C6** (amended).  `Boolean.from_xml` never fails; it returns the
boolean `True` exactly when the text is present, nonempty, and its
lowercased first character is `t`; in every other case it returns a
*falsy* value (the boolean `False` for other nonempty text, `None` for
absent text, the empty string for empty text). -/
theorem c6_boolean_truthiness_amended :
    ∀ t : Option String,
      (booleanFromXml t = PyVal.pyBool true
        ↔ ∃ s, t = some s ∧ s.isEmpty = false ∧ (pyLower s).data.headD ' ' = 't')
      ∧ (pyTruthy (booleanFromXml t) = true ↔ booleanFromXml t = PyVal.pyBool true) := by
  intro t
  cases t with
  | none => simp [booleanFromXml, pyTruthy]
  | some s =>
    by_cases he : s.isEmpty
    · simp [booleanFromXml, he, pyTruthy]
    · by_cases hc : (pyLower s).data.headD ' ' = 't'
      · simp [booleanFromXml, he, hc, pyTruthy]
      · simp [booleanFromXml, he, hc, pyTruthy]

/-- **C7** (confirmed).  Restriction emission is idempotent: for any
bound String type that is unregistered and non-default, the first
`add_to_schema` call emits exactly one restriction fragment and
registers the type, and the second call against the same registry is a
no-op, so exactly one fragment results. -/
theorem c7_restriction_idempotent (cls : StringCls) (se : SchemaEntries)
    (h1 : hasClass se cls = false) (h2 : stringIsDefault cls.attrs = false) :
    addToSchema cls (addToSchema cls se) = addToSchema cls se
    ∧ (addToSchema cls (addToSchema cls se)).fragments
        = se.fragments ++ [restrictionFacets cls.attrs] := by
  have hfirst : addToSchema cls se
      = ⟨cls.typeName :: se.registered, se.fragments ++ [restrictionFacets cls.attrs]⟩ := by
    simp [addToSchema, h1, h2]
  have hsec : hasClass (addToSchema cls se) cls = true := by
    rw [hfirst]
    simp [hasClass]
  have hsecond : addToSchema cls (addToSchema cls se) = addToSchema cls se := by
    conv_lhs => rw [addToSchema]
    rw [hsec]
    simp
  exact ⟨hsecond, by rw [hsecond, hfirst]⟩

/-- Witness for `c7_restriction_idempotent` on `String(max_len=10)`
against a fresh registry. -/
theorem c7_restriction_idempotent_witness :
    hasClass ⟨[], []⟩ ⟨"boundString10", ⟨PyLen.int 0, PyLen.int 10, Option.none, true⟩⟩ = false
    ∧ stringIsDefault ⟨PyLen.int 0, PyLen.int 10, Option.none, true⟩ = false
    ∧ (addToSchema ⟨"boundString10", ⟨PyLen.int 0, PyLen.int 10, Option.none, true⟩⟩
          (addToSchema ⟨"boundString10", ⟨PyLen.int 0, PyLen.int 10, Option.none, true⟩⟩ ⟨[], []⟩)).fragments
        = [] ++ [restrictionFacets ⟨PyLen.int 0, PyLen.int 10, Option.none, true⟩] :=
  ⟨by decide, by decide,
    (c7_restriction_idempotent
      ⟨"boundString10", ⟨PyLen.int 0, PyLen.int 10, Option.none, true⟩⟩
      ⟨[], []⟩ (by decide) (by decide)).2⟩

/-- **C8** (confirmed).  Emitting `String(max_len=10)` into a fresh
schema-entries registry yields exactly one restriction fragment whose
only facet is `maxLength` with value `"10"` — no `minLength` (min_len
is the default 0) and no `length` (0 ≠ 10), and the `unbounded`
sentinel is never rendered. -/
theorem c8_maxlen_fragment :
    addToSchema ⟨"boundString10", ⟨PyLen.int 0, PyLen.int 10, Option.none, true⟩⟩ ⟨[], []⟩
      = ⟨["boundString10"], [[(FacetName.maxLength, "10")]]⟩ := by decide

/-- **C9** (confirmed).  `String.from_xml` never propagates a decode
error: absent text is replaced by the empty string before any encoding
attempt, and text on which the encoding step fails is returned
unmodified. -/
theorem c9_string_decode_fallback :
    (∀ s : String, pyAsciiOnly s = false → stringFromXml (some s) = s)
    ∧ stringFromXml Option.none = "" := by
  constructor
  · intro s hs
    simp [stringFromXml, pyStrOf, pyEncodeUtf8, hs, Except.bind]
  · rfl

/-- Witness for `c9_string_decode_fallback` on a non-ASCII text. -/
theorem c9_string_decode_fallback_witness :
    pyAsciiOnly "café" = false ∧ stringFromXml (some "café") = "café" :=
  ⟨by decide, c9_string_decode_fallback.1 "café" (by decide)⟩

/-- **C10** (counterexample).  A grammar-prefix match does not imply
acceptance: `2020-13-40T00:00:00` matches the local grammar but
`from_xml` raises `ValueError` from the datetime constructor (month
13), so "a failure is raised only when no prefix matches" is false as
stated. -/
theorem c10_prefix_counterexample :
    (matchLocal ("2020-13-40T00:00:00".data)).isSome = true
    ∧ dateTimeFromXml (some "2020-13-40T00:00:00") = Except.error PyErr.valueError := by
  refine ⟨by decide, by decide⟩

/-- **C10** (amended).  The matching is prefix-based: trailing
characters are ignored (`…garbage` parses as a naive datetime), and
the `DateTime [text] not in known format` exception is raised exactly
when no prefix of the text matches any of the three grammars; a
grammar-matching input can still fail, but only with a `ValueError`
from field validation or offset construction, never with the format
exception. -/
theorem c10_prefix_amended :
    dateTimeFromXml (some "2020-01-15T10:30:00garbage")
        = Except.ok ⟨2020, 1, 15, 10, 30, 0, 0, Zone.naive⟩
    ∧ ∀ s : String,
        (dateTimeFromXml (some s)
            = Except.error (PyErr.exception ("DateTime [" ++ s ++ "] not in known format"))
          ↔ matchUtc s.data = Option.none ∧ matchOffset s.data = Option.none
              ∧ matchLocal s.data = Option.none) := by
  constructor
  · decide
  · intro s
    cases hu : matchUtc s.data with
    | some f =>
      simp only [dateTimeFromXml, hu]
      exact iff_of_false (parseDateFields_ne_exception f Zone.utc _) (by simp)
    | none =>
      cases ho : matchOffset s.data with
      | some p =>
        obtain ⟨f, th, tm⟩ := p
        simp only [dateTimeFromXml, hu, ho]
        exact iff_of_false (fixedBind_ne_exception _ f _) (by simp)
      | none =>
        cases hl : matchLocal s.data with
        | some f =>
          simp only [dateTimeFromXml, hu, ho, hl]
          exact iff_of_false (parseDateFields_ne_exception f Zone.naive _) (by simp)
        | none =>
          simp [dateTimeFromXml, hu, ho, hl]

end Soaplib
